import Mathlib

/-!
Shallow embedding of the multi-timeframe stock forecasting engine
(`backend/advanced_ml_models.py`, class `MultiTimeframePredictor`) and the
relevant parts of the HTTP layer (`backend/main.py`, `predict_live_stock`).

Pandas/numpy cells are modelled by `PVal`: a rational number, `nan`, or a
signed infinity, with IEEE-754-like arithmetic (any operation on `nan`
yields `nan`; `x / 0` is a signed infinity for `x ≠ 0` and `nan` for
`0 / 0`; comparisons with `nan` are false).  Square roots of rationals are
irrational in general, so every definition that the source computes with
`sqrt`/`std` is parameterised by an abstract `sq : ℚ → ℚ` standing for the
square-root function; no theorem below depends on its values.
-/

set_option maxHeartbeats 4000000
set_option maxRecDepth 10000

set_option allowUnsafeReducibility true
attribute [local semireducible] Rat.add Rat.mul Rat.sub Rat.inv Rat.div Rat.ofScientific

namespace StockApp

/-- A pandas/numpy float cell: `nan`, `+inf`, `-inf` or a finite rational. -/
inductive PVal where
  | nan : PVal
  | pinf : PVal
  | ninf : PVal
  | num : ℚ → PVal
  deriving DecidableEq

namespace PVal

/-- Whether a cell is `NaN` (the values dropped by `DataFrame.dropna`). -/
def isNan : PVal → Bool
  | nan => true
  | _ => false

/-- IEEE-like negation. -/
def neg : PVal → PVal
  | nan => nan
  | pinf => ninf
  | ninf => pinf
  | num q => num (-q)

/-- IEEE-like addition: `nan` absorbs, `+inf + -inf = nan`. -/
def add : PVal → PVal → PVal
  | nan, _ => nan
  | _, nan => nan
  | pinf, ninf => nan
  | ninf, pinf => nan
  | pinf, _ => pinf
  | _, pinf => pinf
  | ninf, _ => ninf
  | _, ninf => ninf
  | num a, num b => num (a + b)

/-- IEEE-like subtraction. -/
def sub (a b : PVal) : PVal := add a (neg b)

/-- IEEE-like multiplication: `0 × ±inf = nan`. -/
def mul : PVal → PVal → PVal
  | nan, _ => nan
  | _, nan => nan
  | pinf, pinf => pinf
  | pinf, ninf => ninf
  | ninf, pinf => ninf
  | ninf, ninf => pinf
  | pinf, num b => if b = 0 then nan else if 0 < b then pinf else ninf
  | num a, pinf => if a = 0 then nan else if 0 < a then pinf else ninf
  | ninf, num b => if b = 0 then nan else if 0 < b then ninf else pinf
  | num a, ninf => if a = 0 then nan else if 0 < a then ninf else pinf
  | num a, num b => num (a * b)

/-- IEEE-like division: `x / 0` is a signed infinity for `x ≠ 0`,
`0 / 0 = nan`, finite `/ ±inf = 0`, `±inf / ±inf = nan`. -/
def div : PVal → PVal → PVal
  | nan, _ => nan
  | _, nan => nan
  | pinf, pinf => nan
  | pinf, ninf => nan
  | ninf, pinf => nan
  | ninf, ninf => nan
  | pinf, num b => if 0 ≤ b then pinf else ninf
  | ninf, num b => if 0 ≤ b then ninf else pinf
  | num _, pinf => num 0
  | num _, ninf => num 0
  | num a, num b =>
      if b = 0 then (if a = 0 then nan else if 0 < a then pinf else ninf)
      else num (a / b)

/-- IEEE-like strict order as a boolean: any comparison with `nan` is false. -/
def ltb : PVal → PVal → Bool
  | nan, _ => false
  | _, nan => false
  | ninf, ninf => false
  | ninf, _ => true
  | _, ninf => false
  | pinf, _ => false
  | _, pinf => true
  | num a, num b => decide (a < b)

/-- Absolute value. -/
def abs : PVal → PVal
  | nan => nan
  | pinf => pinf
  | ninf => pinf
  | num q => num |q|

end PVal

open PVal

/-- Sum of a list of cells (`nan` absorbs, as in a pandas rolling sum with
`min_periods = window`). -/
def sumP (l : List PVal) : PVal := l.foldl PVal.add (num 0)

/-- Mean of a list of cells over an explicit divisor `w`. -/
def meanOverP (w : ℕ) (l : List PVal) : PVal := PVal.div (sumP l) (num (w : ℚ))

/-- Elementwise binary lift over two series of equal length. -/
def zipP (f : PVal → PVal → PVal) (a b : List PVal) : List PVal := List.zipWith f a b

/-- Pandas `Series.shift(k)`: the first `k` cells become `nan`. -/
def shiftPos (k : ℕ) (s : List PVal) : List PVal :=
  (List.range s.length).map (fun i => if i < k then PVal.nan else s.getD (i - k) PVal.nan)

/-- Pandas `Series.shift(-k)`: the last `k` cells become `nan`. -/
def shiftNeg (k : ℕ) (s : List PVal) : List PVal :=
  (List.range s.length).map (fun i => if i + k < s.length then s.getD (i + k) PVal.nan else PVal.nan)

/-- Pandas `Series.diff(k)`: `s - s.shift(k)`. -/
def diffK (k : ℕ) (s : List PVal) : List PVal := zipP PVal.sub s (shiftPos k s)

/-- Pandas `Series.pct_change(k)`: `s / s.shift(k) - 1`. -/
def pctChangeK (k : ℕ) (s : List PVal) : List PVal :=
  (zipP PVal.div s (shiftPos k s)).map (fun v => PVal.sub v (num 1))

/-- The window of width `w` ending at index `i` of a series, used by the rolling statistics. -/
def windowAt (w i : ℕ) (s : List PVal) : List PVal := (s.drop (i + 1 - w)).take w

/-- Pandas `Series.rolling(w).mean()` (default `min_periods = w`): `nan`
until the window is full, and `nan` whenever the window contains a `nan`. -/
def rollingMean (w : ℕ) (s : List PVal) : List PVal :=
  (List.range s.length).map (fun i =>
    if i + 1 < w then PVal.nan else meanOverP w (windowAt w i s))

/-- Pandas `Series.rolling(w).var()` with pandas' default `ddof = 1`. -/
def rollingVarS (w : ℕ) (s : List PVal) : List PVal :=
  (List.range s.length).map (fun i =>
    if i + 1 < w then PVal.nan
    else
      let l := windowAt w i s
      let m := meanOverP w l
      PVal.div (sumP (l.map (fun x => PVal.mul (PVal.sub x m) (PVal.sub x m)))) (num ((w : ℚ) - 1)))

/-- Square root of a cell, through the abstract rational square root `sq`. -/
def sqrtP (sq : ℚ → ℚ) : PVal → PVal
  | PVal.nan => PVal.nan
  | PVal.pinf => PVal.pinf
  | PVal.ninf => PVal.nan
  | PVal.num q => PVal.num (sq q)

/-- Pandas `Series.rolling(w).std()`: the square root of the rolling variance. -/
def rollingStd (sq : ℚ → ℚ) (w : ℕ) (s : List PVal) : List PVal :=
  (rollingVarS w s).map (sqrtP sq)

/-- Pandas `Series.ewm(span, adjust=False).mean()`: `y₀ = x₀`,
`yₜ = (1-α)·yₜ₋₁ + α·xₜ` with `α = 2/(span+1)`. -/
def ewmMean (span : ℕ) (s : List PVal) : List PVal :=
  let α : ℚ := 2 / ((span : ℚ) + 1)
  match s with
  | [] => []
  | x :: xs =>
      (xs.foldl
        (fun (acc : List PVal × PVal) xt =>
          let y := PVal.add (PVal.mul (num (1 - α)) acc.2) (PVal.mul (num α) xt)
          (acc.1 ++ [y], y))
        ([x], x)).1

/-- Pandas `s.where(0 < s, 0)`: keep the value where positive, else `0`;
a `nan` compares false and is replaced by `0`. -/
def whereGtZero (s : List PVal) : List PVal :=
  s.map (fun v => if PVal.ltb (num 0) v then v else num 0)

/-- Pandas `(-s.where(s < 0, 0))`: negated negative part. -/
def negWhereLtZero (s : List PVal) : List PVal :=
  s.map (fun v => if PVal.ltb v (num 0) then PVal.neg v else num 0)

/-- A scalar broadcast against a series, e.g. `100 - series`. -/
def scalarOp (f : PVal → PVal) (s : List PVal) : List PVal := s.map f

/-- An OHLCV dataframe: a date index (days, as integers) and one rational
column per raw field, all positionally aligned. -/
structure StockDf where
  dates : List ℤ
  dOpen : List ℚ
  dHigh : List ℚ
  dLow : List ℚ
  dClose : List ℚ
  dVolume : List ℚ
  deriving DecidableEq

/-- Number of rows (`len(df)`), read off the close column. -/
def StockDf.n (df : StockDf) : ℕ := df.dClose.length

/-- Lift a raw rational column to a cell series. -/
def liftQ (l : List ℚ) : List PVal := l.map PVal.num

/-- The moving-average window set per timeframe
(`prepare_features`, the `if/elif` chain; any unrecognized string falls
through to the 1M branch). -/
def maPeriods (tf : String) : List ℕ :=
  if tf = "5Y" then [20, 50, 100, 200]
  else if tf = "1Y" then [10, 20, 50, 100]
  else if tf = "6M" then [5, 10, 20, 50]
  else [3, 5, 10, 20]

/-- The momentum window per timeframe (`prepare_features`). -/
def momentumPeriod (tf : String) : ℕ :=
  if tf = "5Y" then 20 else if tf = "1Y" then 15 else if tf = "6M" then 10 else 5

/-- The volatility window per timeframe (`prepare_features`). -/
def volWindow (tf : String) : ℕ :=
  if tf = "5Y" then 60 else if tf = "1Y" then 30 else if tf = "6M" then 20 else 10

/-- The class constant `TIMEFRAME_DAYS`, as a partial map: a plain `[...]`
lookup on it raises `KeyError` for other strings. -/
def TIMEFRAME_DAYS (tf : String) : Option ℕ :=
  if tf = "1M" then some 30
  else if tf = "6M" then some 180
  else if tf = "1Y" then some 365
  else if tf = "5Y" then some 1825
  else none

/-- `TIMEFRAME_DAYS.get(timeframe, 30)` — the defaulting lookup used for the
target shift in `prepare_features`. -/
def timeframeDaysD (tf : String) : ℕ := (TIMEFRAME_DAYS tf).getD 30

/-- The lag count of `prepare_features`: `min(10, max(3, len(df) // 100))`. -/
def lagDays (n : ℕ) : ℕ := min 10 (max 3 (n / 100))

/-- Target shift of `prepare_features`:
`TIMEFRAME_DAYS.get(timeframe, 30) // 30`. -/
def targetShift (tf : String) : ℕ := timeframeDaysD tf / 30

/-- All engineered feature columns of `prepare_features`, in insertion order
(the columns other than raw OHLCV and the target). -/
def featureColumns (sq : ℚ → ℚ) (df : StockDf) (tf : String) : List (List PVal) :=
  let close := liftQ df.dClose
  let n := df.n
  let mas := ((maPeriods tf).filter (fun p => p ≤ n)).map (fun p => rollingMean p close)
  let delta := diffK 1 close
  let gain := rollingMean 14 (whereGtZero delta)
  let loss := rollingMean 14 (negWhereLtZero delta)
  let rs := zipP PVal.div gain loss
  let rsi := rs.map (fun r => PVal.sub (num 100) (PVal.div (num 100) (PVal.add (num 1) r)))
  let momentum := diffK (momentumPeriod tf) close
  let roc := (pctChangeK (momentumPeriod tf) close).map (fun v => PVal.mul v (num 100))
  let volatility := rollingStd sq (volWindow tf) (pctChangeK 1 close)
  let volume := liftQ df.dVolume
  let volumeMa := rollingMean 20 volume
  let volumeRatioCol := zipP PVal.div volume volumeMa
  let macd := zipP PVal.sub (ewmMean 12 close) (ewmMean 26 close)
  let macdSignal := ewmMean 9 macd
  let bbMiddle := rollingMean 20 close
  let bbStd := rollingStd sq 20 close
  let bbUpper := zipP PVal.add bbMiddle (bbStd.map (fun v => PVal.mul v (num 2)))
  let bbLower := zipP PVal.sub bbMiddle (bbStd.map (fun v => PVal.mul v (num 2)))
  let bbPosition := zipP PVal.div (zipP PVal.sub close bbLower) (zipP PVal.sub bbUpper bbLower)
  let highLowCol := zipP PVal.div (liftQ df.dHigh) (liftQ df.dLow)
  let closeOpenCol := zipP PVal.div close (liftQ df.dOpen)
  let lags := (List.range (lagDays n)).flatMap (fun j =>
    [shiftPos (j + 1) close, shiftPos (j + 1) (pctChangeK 1 close)])
  mas ++ [rsi, momentum, roc, volatility, volumeMa, volumeRatioCol, macd, macdSignal,
    bbMiddle, bbUpper, bbLower, bbPosition, highLowCol, closeOpenCol] ++ lags

/-- The engineered feature column names, in the same order as
`featureColumns` (the `feature_cols` of `prepare_features`). -/
def featureNames (df : StockDf) (tf : String) : List String :=
  (((maPeriods tf).filter (fun p => p ≤ df.n)).map (fun p => "ma" ++ toString p)) ++
    ["rsi", "momentum", "roc", "volatility", "volume_ma", "volume_ratio", "macd",
      "macd_signal", "bb_middle", "bb_upper", "bb_lower", "bb_position",
      "high_low_ratio", "close_open_ratio"] ++
    (List.range (lagDays df.n)).flatMap (fun j =>
      ["close_lag_" ++ toString (j + 1), "return_lag_" ++ toString (j + 1)])

/-- The target column: `df['Close'].shift(-target_shift)`. -/
def targetColumn (df : StockDf) (tf : String) : List PVal :=
  shiftNeg (targetShift tf) (liftQ df.dClose)

/-- Row indices kept by `dropna`: those where every engineered column and
the target are non-`NaN` (the raw OHLCV cells are always finite). -/
def keptIdx (sq : ℚ → ℚ) (df : StockDf) (tf : String) : List ℕ :=
  let cols := featureColumns sq df tf ++ [targetColumn df tf]
  (List.range df.n).filter (fun i => cols.all (fun c => !(c.getD i PVal.nan).isNan))

/-- The feature matrix `X` of `prepare_features`: the kept rows of the
engineered columns. -/
def prepareX (sq : ℚ → ℚ) (df : StockDf) (tf : String) : List (List PVal) :=
  let cols := featureColumns sq df tf
  (keptIdx sq df tf).map (fun i => cols.map (fun c => c.getD i PVal.nan))

/-- The target series `y` of `prepare_features`: the close `target_shift`
rows ahead, at each kept row. -/
def prepareY (sq : ℚ → ℚ) (df : StockDf) (tf : String) : List ℚ :=
  (keptIdx sq df tf).map (fun i => df.dClose.getD (i + targetShift tf) 0)

/-- A fitted model, as cached in `self.models`: the chosen regression family
together with the (scaled) training data that determined the fit.  The
fitted estimator itself is an opaque sklearn object; predictions from it
are supplied by an abstract `Backend`. -/
structure ModelEntry where
  family : String
  trainXScaled : List (List PVal)
  trainY : List ℚ
  deriving DecidableEq

/-- The predictor's mutable state: the `self.models`, `self.scalers` and
`self.feature_importance` dictionaries, as association lists keyed by
`f"{symbol}_{timeframe}"` (most recent binding first). -/
structure PredState where
  models : List (String × ModelEntry)
  scalers : List (String × List (PVal × PVal))
  featImportance : List (String × List (String × ℚ))
  deriving DecidableEq

/-- The initial state of `MultiTimeframePredictor.__init__`. -/
def emptyState : PredState := ⟨[], [], []⟩

/-- Overwriting insertion into an association list (Python dict assignment). -/
def insertA {β : Type} (k : String) (v : β) (l : List (String × β)) : List (String × β) :=
  (k, v) :: l.filter (fun p => !(p.1 == k))

/-- The opaque sklearn side: given a fitted model's determining data, a
prediction for each supplied (scaled) feature row, and optionally the
model's `feature_importances_`. -/
structure Backend where
  predict : ModelEntry → List (List PVal) → List ℚ
  featureImportances : ModelEntry → Option (List ℚ)

/-- The four evaluation metrics of `train_model`. -/
structure Metrics where
  rmse : ℚ
  mae : ℚ
  r2 : ℚ
  mape : ℚ
  deriving DecidableEq

/-- Sum of a list of rationals. -/
def sumQ (l : List ℚ) : ℚ := l.foldl (· + ·) 0

/-- RMSE, MAE, R² and MAPE of `train_model` on the test slice (`np.sqrt`
goes through the abstract square root `sq`; a division by zero, impossible
on the inputs the claims concern, yields `0` here where numpy would give
`NaN`/`inf`). -/
def computeMetrics (sq : ℚ → ℚ) (yTest yPred : List ℚ) : Metrics :=
  let nT : ℚ := (yTest.length : ℚ)
  let errs := List.zipWith (fun a p => a - p) yTest yPred
  let yBar := sumQ yTest / nT
  { rmse := sq (sumQ (errs.map (fun e => e * e)) / nT),
    mae := sumQ (errs.map (fun e => |e|)) / nT,
    r2 := 1 - sumQ (errs.map (fun e => e * e)) / sumQ (yTest.map (fun a => (a - yBar) * (a - yBar))),
    mape := sumQ (List.zipWith (fun a p => |(a - p) / a|) yTest yPred) / nT * 100 }

/-- Per-timeframe minimum-sample floors, `min_samples.get(timeframe, 50)`. -/
def minSamplesD (tf : String) : ℕ :=
  if tf = "1M" then 30 else if tf = "6M" then 60
  else if tf = "1Y" then 100 else if tf = "5Y" then 200 else 50

/-- The split point `int(len(X) * 0.8)` of `train_model`.  (The float
product `n * 0.8` rounds to nearest above the exact value, so truncation
agrees with `⌊4n/5⌋` for every feasible `n`.) -/
def splitIdx (m : ℕ) : ℕ := 4 * m / 5

/-- The model family chosen by `train_model`: gradient boosting for the
long horizons, random forest otherwise. -/
def modelFamily (tf : String) : String :=
  if tf = "5Y" ∨ tf = "1Y" then "GradientBoostingRegressor" else "RandomForestRegressor"

/-- Mean and (population, `ddof = 0`) variance of one feature column over
`nRows` rows — the statistics `StandardScaler.fit` extracts. -/
def colMeanVar (nRows : ℕ) (col : List PVal) : PVal × PVal :=
  let m := meanOverP nRows col
  (m, meanOverP nRows (col.map (fun x => PVal.mul (PVal.sub x m) (PVal.sub x m))))

/-- `StandardScaler.fit`: per-column mean and variance of the given rows. -/
def fitScaler (x : List (List PVal)) : List (PVal × PVal) :=
  x.transpose.map (colMeanVar x.length)

/-- `StandardScaler.transform` on one cell: `(x - mean) / sqrt(var)`, with
sklearn's guard replacing a zero scale by `1`. -/
def scaleVal (sq : ℚ → ℚ) (mv : PVal × PVal) (x : PVal) : PVal :=
  PVal.div (PVal.sub x mv.1) (if mv.2 = PVal.num 0 then PVal.num 1 else sqrtP sq mv.2)

/-- `StandardScaler.transform` on one feature row. -/
def standardizeRow (sq : ℚ → ℚ) (stats : List (PVal × PVal)) (row : List PVal) : List PVal :=
  List.zipWith (scaleVal sq) stats row

/-- The successful payload of `train_model` (the fields the claims below
concern; the uniform ±2σ bounds add nothing to them and are omitted). -/
structure TrainOk where
  predictions : List ℚ
  actuals : List ℚ
  predictionDates : List ℤ
  metrics : Metrics
  featureColumnNames : List String
  deriving DecidableEq

/-- The result of `train_model`: either the structured insufficient-data
dictionary (an `'error'` key plus zeroed metrics) or the success payload. -/
inductive TrainResult where
  | insufficientData : String → Metrics → TrainResult
  | ok : TrainOk → TrainResult
  deriving DecidableEq

/-- Descending stable sort by importance
(`feature_importance.sort(key=lambda x: x[1], reverse=True)`). -/
def sortByImportance (l : List (String × ℚ)) : List (String × ℚ) :=
  l.mergeSort (fun a b => decide (b.2 ≤ a.2))

/-- `MultiTimeframePredictor.train_model`: engineer features, check the
per-timeframe sample floor, split 80/20 chronologically, scale on the
training slice, fit/predict through the abstract backend, compute metrics,
and cache model, scaler and sorted feature importances under
`f"{symbol}_{timeframe}"`. -/
def trainModel (B : Backend) (sq : ℚ → ℚ) (st : PredState) (df : StockDf)
    (symbol tf : String) : TrainResult × PredState :=
  let X := prepareX sq df tf
  let y := prepareY sq df tf
  if X.length < minSamplesD tf then
    (.insufficientData
      ("Insufficient data for " ++ tf ++ " training. Need at least " ++
        toString (minSamplesD tf) ++ " samples, got " ++ toString X.length)
      ⟨0, 0, 0, 0⟩, st)
  else
    let k := splitIdx X.length
    let xTr := X.take k
    let xTe := X.drop k
    let yTr := y.take k
    let yTe := y.drop k
    let stats := fitScaler xTr
    let xTrS := xTr.map (standardizeRow sq stats)
    let xTeS := xTe.map (standardizeRow sq stats)
    let entry : ModelEntry := ⟨modelFamily tf, xTrS, yTr⟩
    let yPred := B.predict entry xTeS
    let key := symbol ++ "_" ++ tf
    let featImp :=
      match B.featureImportances entry with
      | some imps => insertA key (sortByImportance ((featureNames df tf).zip imps)) st.featImportance
      | none => st.featImportance
    let testDates := (df.dates.drop k).take yTe.length
    (.ok ⟨yPred, yTe, testDates, computeMetrics sq yTe yPred, featureNames df tf⟩,
      ⟨insertA key entry st.models, insertA key stats st.scalers, featImp⟩)

/-- One forecast point of `predict_future` (date as a day offset, horizon
offset, predicted price, confidence score; the ±2σ uncertainty bounds
involve the same abstract square root and are orthogonal to the claims). -/
structure ForecastPoint where
  dateI : ℤ
  daysAhead : ℕ
  predicted : ℚ
  confidence : ℚ
  deriving DecidableEq

/-- `get_prediction_points`: `points.get(timeframe, 30)`. -/
def predictionPoints (tf : String) : ℕ :=
  if tf = "1M" then 30 else if tf = "6M" then 26
  else if tf = "1Y" then 52 else if tf = "5Y" then 60 else 30

/-- The historical trend rate of `predict_future` for the long horizons:
`(close[-1] - close[-trend_days]) / trend_days`, `trend_days = min(90, len(df)//2)`. -/
def recentTrendRate (df : StockDf) : ℚ :=
  let td := min 90 (df.n / 2)
  let idx := if td = 0 then 0 else df.n - td
  (df.dClose.getD (df.n - 1) 0 - df.dClose.getD idx 0) / (td : ℚ)

/-- One iteration of `predict_future`'s loop: the `i`-th appended point,
with `days_ahead = (i+1) * (total_days // points)`, a trend adjustment on
the long horizons, and the linearly decaying confidence score. -/
def forecastPoint (tf : String) (totalDays pts : ℕ) (lastDate : ℤ) (base trendRate : ℚ)
    (i : ℕ) : ForecastPoint :=
  let dpp := totalDays / pts
  let dA := (i + 1) * dpp
  { dateI := lastDate + (dA : ℤ),
    daysAhead := dA,
    predicted := if tf = "1Y" ∨ tf = "5Y" then base + trendRate * (dA : ℚ) else base,
    confidence := max 0 (100 - ((dA : ℚ) / (totalDays : ℚ) * 50)) }

/-- `MultiTimeframePredictor.predict_future`: lazily train, read the cached
model and scaler (a missing key raises, modelled as `none`), abort with an
empty list when there is no model or no engineered row, and otherwise emit
one `forecastPoint` per `get_prediction_points(timeframe)`. -/
def predictFuture (B : Backend) (sq : ℚ → ℚ) (st : PredState) (df : StockDf)
    (symbol tf : String) : Option (List ForecastPoint) × PredState :=
  let key := symbol ++ "_" ++ tf
  let st1 := if (st.models.lookup key).isSome then st else (trainModel B sq st df symbol tf).2
  match st1.models.lookup key with
  | none => (some [], st1)
  | some entry =>
    match st1.scalers.lookup key with
    | none => (none, st1)
    | some stats =>
      let X := prepareX sq df tf
      if X.length = 0 then (some [], st1)
      else
        let lastScaled := standardizeRow sq stats (X.getLastD [])
        match TIMEFRAME_DAYS tf with
        | none => (none, st1)
        | some totalDays =>
          let lastDate := df.dates.getD (df.dates.length - 1) 0
          let base := (B.predict entry [lastScaled]).headD 0
          (some ((List.range (predictionPoints tf)).map
            (forecastPoint tf totalDays (predictionPoints tf) lastDate base
              (recentTrendRate df))), st1)

/-- The comparison-period cap of `analyze_trend`. -/
def trendCap (tf : String) : ℕ :=
  if tf = "5Y" then 200 else if tf = "1Y" then 100 else if tf = "6M" then 50 else 20

/-- Pandas `Series.mean()`: `NaN` (here `none`) on an empty slice. -/
def meanOpt (l : List ℚ) : Option ℚ :=
  if l.isEmpty then none else some (sumQ l / (l.length : ℚ))

/-- The final comparison of `analyze_trend`:
`'Bullish' if recent_avg > older_avg else 'Bearish'` — a comparison against
an undefined (empty-slice, `NaN`) mean is false in pandas and falls through
to `'Bearish'`. -/
def trendOfMeans : Option ℚ → Option ℚ → String
  | some r, some o => if o < r then "Bullish" else "Bearish"
  | _, _ => "Bearish"

/-- `MultiTimeframePredictor.analyze_trend`: compare the mean of the most
recent half-period against the preceding half-period. -/
def analyzeTrend (df : StockDf) (tf : String) : String :=
  let period := min (trendCap tf) (df.n / 2)
  if df.n < period then "Neutral"
  else
    let h := period / 2
    let recentSlice := if h = 0 then df.dClose else df.dClose.drop (df.n - h)
    let olderSlice := if h = 0 then [] else (df.dClose.drop (df.n - period)).take (period - h)
    trendOfMeans (meanOpt recentSlice) (meanOpt olderSlice)

/-- The price-target record of `get_price_targets`. -/
structure PriceTargets where
  conservative : ℚ
  moderate : ℚ
  aggressive : ℚ
  conservativePct : ℚ
  moderatePct : ℚ
  aggressivePct : ℚ
  deriving DecidableEq

/-- The fixed per-horizon target-percentage table,
`targets.get(timeframe, (0.10, 0.20, 0.30))`. -/
def baseTargets (tf : String) : ℚ × ℚ × ℚ :=
  if tf = "1M" then (5/100, 10/100, 15/100)
  else if tf = "6M" then (15/100, 25/100, 40/100)
  else if tf = "1Y" then (25/100, 50/100, 75/100)
  else if tf = "5Y" then (50/100, 1, 2)
  else (10/100, 20/100, 30/100)

/-- `MultiTimeframePredictor.get_price_targets`: the table percentage,
halved when the trend is `'Bearish'`, applied to the current price. -/
def getPriceTargets (currentPrice : ℚ) (tf trend : String) : PriceTargets :=
  let t := baseTargets tf
  let c := if trend = "Bearish" then t.1 * (1/2) else t.1
  let m := if trend = "Bearish" then t.2.1 * (1/2) else t.2.1
  let a := if trend = "Bearish" then t.2.2 * (1/2) else t.2.2
  { conservative := currentPrice * (1 + c),
    moderate := currentPrice * (1 + m),
    aggressive := currentPrice * (1 + a),
    conservativePct := c * 100,
    moderatePct := m * 100,
    aggressivePct := a * 100 }

/-- The valid timeframes checked by the HTTP endpoints in `main.py`. -/
def validTimeframes : List String := ["1M", "6M", "1Y", "5Y"]

/-- The recommendation ladder of `predict_live_stock`
(`main.py`, lines 551-563): trend and test-set R² decide the label and the
confidence tier. -/
def recommendationFor (trend : String) (r2 : ℚ) : String × String :=
  if trend = "Bullish" ∧ 1/2 < r2 then ("BUY", "High")
  else if trend = "Bullish" then ("BUY", "Medium")
  else if trend = "Bearish" ∧ 1/2 < r2 then ("SELL", "High")
  else ("HOLD", "Low")

/-- The payload of a successful `predict_live_stock` response. -/
structure LiveResponse where
  symbol : String
  timeframe : String
  currentPrice : ℚ
  predictions : List ForecastPoint
  modelMetrics : Metrics
  trend : String
  priceTargets : PriceTargets
  recommendation : String
  confidence : String
  deriving DecidableEq

/-- The `/live/stocks/{symbol}/predict` endpoint (`predict_live_stock` in
`main.py`), with the already-fetched dataframe as input: timeframe
validation, then empty-data check, training (an insufficient-data result
becomes a 400 error), forecasting, trend, price targets and recommendation. -/
def predictLiveStock (B : Backend) (sq : ℚ → ℚ) (st : PredState) (df : StockDf)
    (symbol tf : String) : Except String LiveResponse × PredState :=
  if tf ∉ validTimeframes then (.error "Timeframe must be 1M, 6M, 1Y, or 5Y", st)
  else if df.n = 0 then (.error ("No data found for " ++ symbol), st)
  else
    match trainModel B sq st df symbol tf with
    | (.insufficientData msg _, st1) => (.error msg, st1)
    | (.ok r, st1) =>
      let fp := predictFuture B sq st1 df symbol tf
      let trend := analyzeTrend df tf
      let cp := df.dClose.getD (df.n - 1) 0
      let rc := recommendationFor trend r.metrics.r2
      (.ok
        { symbol := symbol, timeframe := tf, currentPrice := cp,
          predictions := fp.1.getD [], modelMetrics := r.metrics, trend := trend,
          priceTargets := getPriceTargets cp tf trend,
          recommendation := rc.1, confidence := rc.2 }, fp.2)

/-! ### Concrete data used to instantiate the theorems -/

/-- A synthetic close series: positive, non-constant on every window, with
both gains and losses inside every 14-day stretch. -/
def mkCloses (n : ℕ) : List ℚ :=
  (List.range n).map (fun i => ((100 + i + (if i % 2 = 1 then 3 else 0) : ℕ) : ℚ))

/-- A synthetic OHLCV dataframe with `n` rows, dated `0, 1, …, n-1`. -/
def mkDf (n : ℕ) : StockDf :=
  { dates := (List.range n).map Int.ofNat,
    dOpen := mkCloses n,
    dHigh := (mkCloses n).map (fun c => c + 1),
    dLow := mkCloses n,
    dClose := mkCloses n,
    dVolume := (List.range n).map (fun _ => 1000) }

/-- A concrete backend: the fitted model predicts `0` for every row and
exposes no feature importances. -/
def B0 : Backend :=
  { predict := fun _ rows => rows.map (fun _ => 0),
    featureImportances := fun _ => none }

/-- A cached fitted-model entry for instantiating the forecast theorems. -/
def entry0 : ModelEntry := ⟨"RandomForestRegressor", [], []⟩

/-- A predictor state holding a trained model and scaler for `AAPL`/`1M`. -/
def st0 : PredState := ⟨[("AAPL_1M", entry0)], [("AAPL_1M", [])], []⟩

/-! ### Helper lemmas -/

/-- The engineered matrix has one row per kept index. -/
theorem prepareX_length (sq : ℚ → ℚ) (df : StockDf) (tf : String) :
    (prepareX sq df tf).length = (keptIdx sq df tf).length := by
  simp [prepareX]

/-- The target series has one entry per kept index. -/
theorem prepareY_length (sq : ℚ → ℚ) (df : StockDf) (tf : String) :
    (prepareY sq df tf).length = (keptIdx sq df tf).length := by
  simp [prepareY]

/-- The kept indices are strictly increasing. -/
theorem keptIdx_pairwise (sq : ℚ → ℚ) (df : StockDf) (tf : String) :
    (keptIdx sq df tf).Pairwise (· < ·) :=
  List.Pairwise.filter _ (List.pairwise_lt_range _)

/-- Every kept index addresses a raw row. -/
theorem keptIdx_lt (sq : ℚ → ℚ) (df : StockDf) (tf : String) :
    ∀ x ∈ keptIdx sq df tf, x < df.n := by
  intro x hx
  have := (List.mem_filter.1 hx).1
  simpa using this

/-- There are at most as many kept rows as raw rows. -/
theorem keptIdx_length_le (sq : ℚ → ℚ) (df : StockDf) (tf : String) :
    (keptIdx sq df tf).length ≤ df.n := by
  simpa using List.length_filter_le _ (List.range df.n)

/-- Every minimum-sample floor is at least 30. -/
theorem minSamplesD_ge (tf : String) : 30 ≤ minSamplesD tf := by
  unfold minSamplesD
  split_ifs <;> norm_num

/-- The 80% split point is below the row count for nonempty data. -/
theorem splitIdx_lt {m : ℕ} (hm : 1 ≤ m) : splitIdx m < m := by
  unfold splitIdx
  exact Nat.div_lt_of_lt_mul (by omega)

/-- The 80% split point is positive once the sample floor is met. -/
theorem splitIdx_pos {m : ℕ} (hm : 30 ≤ m) : 1 ≤ splitIdx m := by
  unfold splitIdx
  have : (4 * 30) / 5 ≤ 4 * m / 5 := Nat.div_le_div_right (by omega)
  omega

/-- In a strictly increasing list of naturals, the entry at position `i` is
at least the head plus `i`. -/
theorem pairwise_lt_headD_le (l : List ℕ) (hp : l.Pairwise (· < ·)) :
    ∀ (i : ℕ) (h : i < l.length), l.headD 0 + i ≤ l.get ⟨i, h⟩ := by
  induction l with
  | nil => intro i h; simp at h
  | cons a t ih =>
    intro i h
    match i with
    | 0 => simp
    | Nat.succ j =>
      have hjt : j < t.length := by simpa using h
      have ht := (List.pairwise_cons.1 hp).2
      have iha := ih ht j hjt
      have hat : a < t.headD 0 := by
        cases t with
        | nil => simp at hjt
        | cons b u => exact (List.pairwise_cons.1 hp).1 b (by simp)
      calc (a :: t).headD 0 + (j + 1) = (a + 1) + j := by simp; omega
        _ ≤ t.headD 0 + j := by omega
        _ ≤ t.get ⟨j, hjt⟩ := iha
        _ = (a :: t).get ⟨j + 1, h⟩ := rfl

/-- Discriminator for the success variant of `train_model`'s result. -/
def TrainResult.isOk : TrainResult → Bool
  | .ok _ => true
  | _ => false

/-- The synthetic dates are strictly increasing. -/
theorem mkDf_dates_pairwise (n : ℕ) : (mkDf n).dates.Pairwise (· < ·) := by
  have hd : (mkDf n).dates = (List.range n).map Int.ofNat := rfl
  rw [hd, List.pairwise_map]
  refine (List.pairwise_lt_range n).imp ?_
  intro a b h
  exact Int.ofNat_lt.2 h

/-- The synthetic date index has one entry per row. -/
theorem mkDf_dates_length (n : ℕ) : (mkDf n).dates.length = (mkDf n).n := by
  have h1 : (mkDf n).dates.length = n := by
    have hd : (mkDf n).dates = (List.range n).map Int.ofNat := rfl
    rw [hd, List.length_map, List.length_range]
  have h2 : (mkDf n).n = n := by
    have hc : (mkDf n).dClose = mkCloses n := rfl
    rw [StockDf.n, hc, mkCloses, List.length_map, List.length_range]
  rw [h1, h2]

/-- An unrecognized timeframe string falls through to every component's
default: the 1M feature windows, a 30-day horizon, a 50-sample floor,
30 forecast points, the (10%, 20%, 30%) target table and the 1M trend cap. -/
theorem invalid_tf_params {tf : String} (h : tf ∉ validTimeframes) :
    maPeriods tf = maPeriods "1M" ∧ momentumPeriod tf = momentumPeriod "1M" ∧
      volWindow tf = volWindow "1M" ∧ timeframeDaysD tf = 30 ∧ minSamplesD tf = 50 ∧
      predictionPoints tf = 30 ∧ baseTargets tf = (10/100, 20/100, 30/100) ∧
      trendCap tf = 20 := by
  simp only [validTimeframes, List.mem_cons, List.not_mem_nil, or_false, not_or] at h
  obtain ⟨h1, h2, h3, h4⟩ := h
  refine ⟨?_, ?_, ?_, ?_, ?_, ?_, ?_, ?_⟩ <;>
    simp [maPeriods, momentumPeriod, volWindow, timeframeDaysD, TIMEFRAME_DAYS,
      minSamplesD, predictionPoints, baseTargets, trendCap, h1, h2, h3, h4]

/-- An unrecognized timeframe engineers exactly the same rows as `1M`. -/
theorem invalid_tf_keptIdx (sq : ℚ → ℚ) (df : StockDf) {tf : String}
    (h : tf ∉ validTimeframes) : keptIdx sq df tf = keptIdx sq df "1M" := by
  obtain ⟨h1, h2, h3, h4, -⟩ := invalid_tf_params h
  unfold keptIdx featureColumns targetColumn targetShift
  rw [h1, h2, h3, h4]
  simp [timeframeDaysD, TIMEFRAME_DAYS]

/-- Concrete evaluation: a one-row series engineers no usable row. -/
theorem keptIdx_mkDf1 : keptIdx id (mkDf 1) "1M" = [] := by decide

/-- Concrete evaluation: ten rows engineer no usable row for `1Y`. -/
theorem keptIdx_mkDf10 : keptIdx id (mkDf 10) "1Y" = [] := by decide

/-- Concrete evaluation: 21 rows engineer exactly one usable row for `1M`. -/
theorem keptIdx_mkDf21 : keptIdx id (mkDf 21) "1M" = [19] := by decide

/-- Concrete evaluation: 50 rows engineer rows 19–48 for `1M`. -/
theorem keptIdx_mkDf50 : keptIdx id (mkDf 50) "1M" = List.range' 19 30 := by decide

/-- Concrete evaluation: 70 rows engineer rows 19–68 for `1M`. -/
theorem keptIdx_mkDf70 : keptIdx id (mkDf 70) "1M" = List.range' 19 50 := by decide

/-! ### Claim theorems -/

/-- C5: the horizon-forecast recommendation follows the Trend+R² policy
exactly: Bullish with R² > 0.5 gives BUY/High, Bullish otherwise BUY/Medium,
Bearish with R² > 0.5 gives SELL/High, and every other combination
HOLD/Low. -/
theorem c5_trend_r2_policy (trend : String) (r2 : ℚ) :
    (trend = "Bullish" → 1/2 < r2 → recommendationFor trend r2 = ("BUY", "High")) ∧
    (trend = "Bullish" → r2 ≤ 1/2 → recommendationFor trend r2 = ("BUY", "Medium")) ∧
    (trend = "Bearish" → 1/2 < r2 → recommendationFor trend r2 = ("SELL", "High")) ∧
    (trend ≠ "Bullish" → ¬(trend = "Bearish" ∧ 1/2 < r2) →
      recommendationFor trend r2 = ("HOLD", "Low")) := by
  unfold recommendationFor
  refine ⟨fun h1 h2 => ?_, fun h1 h2 => ?_, fun h1 h2 => ?_, fun h1 h2 => ?_⟩ <;>
    split_ifs with ha hb hc <;> simp_all <;> linarith

/-- Witness for C5 at concrete inputs. -/
theorem c5_witness :
    recommendationFor "Bullish" 1 = ("BUY", "High") ∧
    recommendationFor "Neutral" 1 = ("HOLD", "Low") :=
  ⟨(c5_trend_r2_policy "Bullish" 1).1 rfl (by norm_num),
    (c5_trend_r2_policy "Neutral" 1).2.2.2 (by decide) (by decide)⟩

/-- C6: price targets come from the fixed per-horizon percentage table,
halved under a Bearish trend; in particular `1Y`/Bearish/100 gives
conservative 112.5, moderate 125, aggressive 137.5. -/
theorem c6_price_targets (cp : ℚ) (trend : String) :
    ((getPriceTargets cp "1M" trend).conservative
        = cp * (1 + (if trend = "Bearish" then (5/100 : ℚ) * (1/2) else 5/100)) ∧
      (getPriceTargets cp "1M" trend).moderate
        = cp * (1 + (if trend = "Bearish" then (10/100 : ℚ) * (1/2) else 10/100)) ∧
      (getPriceTargets cp "1M" trend).aggressive
        = cp * (1 + (if trend = "Bearish" then (15/100 : ℚ) * (1/2) else 15/100))) ∧
    ((getPriceTargets cp "6M" trend).conservative
        = cp * (1 + (if trend = "Bearish" then (15/100 : ℚ) * (1/2) else 15/100)) ∧
      (getPriceTargets cp "6M" trend).moderate
        = cp * (1 + (if trend = "Bearish" then (25/100 : ℚ) * (1/2) else 25/100)) ∧
      (getPriceTargets cp "6M" trend).aggressive
        = cp * (1 + (if trend = "Bearish" then (40/100 : ℚ) * (1/2) else 40/100))) ∧
    ((getPriceTargets cp "1Y" trend).conservative
        = cp * (1 + (if trend = "Bearish" then (25/100 : ℚ) * (1/2) else 25/100)) ∧
      (getPriceTargets cp "1Y" trend).moderate
        = cp * (1 + (if trend = "Bearish" then (50/100 : ℚ) * (1/2) else 50/100)) ∧
      (getPriceTargets cp "1Y" trend).aggressive
        = cp * (1 + (if trend = "Bearish" then (75/100 : ℚ) * (1/2) else 75/100))) ∧
    ((getPriceTargets cp "5Y" trend).conservative
        = cp * (1 + (if trend = "Bearish" then (50/100 : ℚ) * (1/2) else 50/100)) ∧
      (getPriceTargets cp "5Y" trend).moderate
        = cp * (1 + (if trend = "Bearish" then (1 : ℚ) * (1/2) else 1)) ∧
      (getPriceTargets cp "5Y" trend).aggressive
        = cp * (1 + (if trend = "Bearish" then (2 : ℚ) * (1/2) else 2))) ∧
    (getPriceTargets 100 "1Y" "Bearish").conservative = 225/2 ∧
    (getPriceTargets 100 "1Y" "Bearish").moderate = 125 ∧
    (getPriceTargets 100 "1Y" "Bearish").aggressive = 275/2 := by
  by_cases h : trend = "Bearish" <;>
    simp [getPriceTargets, baseTargets, h] <;> norm_num

/-- The trend comparison yields only the two directional labels. -/
theorem trendOfMeans_cases (o1 o2 : Option ℚ) :
    trendOfMeans o1 o2 = "Bullish" ∨ trendOfMeans o1 o2 = "Bearish" := by
  rcases o1 with - | r <;> rcases o2 with - | o
  · exact Or.inr rfl
  · exact Or.inr rfl
  · exact Or.inr rfl
  · show (if o < r then "Bullish" else "Bearish") = "Bullish" ∨
        (if o < r then "Bullish" else "Bearish") = "Bearish"
    split_ifs with h
    · exact Or.inl rfl
    · exact Or.inr rfl

/-- C9: `analyze_trend` never returns `'Neutral'`: the comparison period is
capped at half the series length, so the short-series guard is
unreachable, for every series (empty included) and every timeframe
string. -/
theorem c9_trend_never_neutral (df : StockDf) (tf : String) :
    analyzeTrend df tf = "Bullish" ∨ analyzeTrend df tf = "Bearish" := by
  unfold analyzeTrend
  have h1 : min (trendCap tf) (df.n / 2) ≤ df.n / 2 := min_le_right _ _
  have h2 : df.n / 2 ≤ df.n := Nat.div_le_self df.n 2
  rw [if_neg (by omega)]
  dsimp only
  exact trendOfMeans_cases _ _

/-- C3: when the engineered row count is below the per-timeframe floor,
`train_model` returns the structured insufficient-data result with the
explanatory message and all-zero metrics, and leaves the state (all three
caches) unchanged. -/
theorem c3_insufficient_data (B : Backend) (sq : ℚ → ℚ) (st : PredState) (df : StockDf)
    (symbol tf : String) (h : (prepareX sq df tf).length < minSamplesD tf) :
    trainModel B sq st df symbol tf =
      (.insufficientData
        ("Insufficient data for " ++ tf ++ " training. Need at least " ++
          toString (minSamplesD tf) ++ " samples, got " ++
          toString (prepareX sq df tf).length)
        ⟨0, 0, 0, 0⟩, st) := by
  simp only [trainModel]
  rw [if_pos h]

/-- Witness for C3: a 10-row dataset with timeframe `1Y` (floor 100). -/
theorem c3_witness :
    (prepareX id (mkDf 10) "1Y").length < minSamplesD "1Y" ∧
    trainModel B0 id st0 (mkDf 10) "AAPL" "1Y" =
      (.insufficientData
        "Insufficient data for 1Y training. Need at least 100 samples, got 0"
        ⟨0, 0, 0, 0⟩, st0) := by
  have hlen : (prepareX id (mkDf 10) "1Y").length = 0 := by
    rw [prepareX_length, keptIdx_mkDf10]
    rfl
  have h : (prepareX id (mkDf 10) "1Y").length < minSamplesD "1Y" := by
    rw [hlen]; decide
  have happ := c3_insufficient_data B0 id st0 (mkDf 10) "AAPL" "1Y" h
  rw [hlen] at happ
  refine ⟨h, ?_⟩
  rw [happ]
  decide

/-- C8 (amended): the HTTP endpoint rejects an invalid timeframe with a 400
error before any computation, but the predictor components do not validate:
an unrecognized timeframe string silently falls through to the 1M feature
windows and target shift, a 50-sample floor, 30 forecast points and the
(10%, 20%, 30%) price-target table. -/
theorem c8_component_defaults {tf : String} (h : tf ∉ validTimeframes) :
    (∀ (B : Backend) (sq : ℚ → ℚ) (st : PredState) (df : StockDf) (symbol : String),
        predictLiveStock B sq st df symbol tf =
          (.error "Timeframe must be 1M, 6M, 1Y, or 5Y", st)) ∧
    maPeriods tf = maPeriods "1M" ∧ timeframeDaysD tf = 30 ∧ minSamplesD tf = 50 ∧
    predictionPoints tf = 30 ∧ baseTargets tf = (10/100, 20/100, 30/100) ∧
    (∀ (sq : ℚ → ℚ) (df : StockDf), keptIdx sq df tf = keptIdx sq df "1M") := by
  obtain ⟨h1, _, _, h4, h5, h6, h7, _⟩ := invalid_tf_params h
  refine ⟨fun B sq st df symbol => ?_, h1, h4, h5, h6, h7,
    fun sq df => invalid_tf_keptIdx sq df h⟩
  unfold predictLiveStock
  rw [if_pos h]

/-- Witness for C8's amended statement at the concrete string `2Y`. -/
theorem c8_witness :
    "2Y" ∉ validTimeframes ∧ minSamplesD "2Y" = 50 ∧ predictionPoints "2Y" = 30 :=
  ⟨by decide, (c8_component_defaults (by decide)).2.2.2.1,
    (c8_component_defaults (by decide)).2.2.2.2.1⟩

/-- Counterexample for C8 as stated: with the unrecognized timeframe `2Y`,
the predictor performs full feature engineering (producing exactly the 1M
configuration's rows) and `train_model` trains successfully instead of
rejecting the timeframe. -/
theorem c8_counterexample :
    "2Y" ∉ validTimeframes ∧
    keptIdx id (mkDf 70) "2Y" = keptIdx id (mkDf 70) "1M" ∧
    (keptIdx id (mkDf 70) "2Y").length = 50 ∧
    (trainModel B0 id emptyState (mkDf 70) "AAPL" "2Y").1.isOk = true := by
  have hinv : "2Y" ∉ validTimeframes := by decide
  have hkept := invalid_tf_keptIdx id (mkDf 70) hinv
  have hklen : (keptIdx id (mkDf 70) "2Y").length = 50 := by
    rw [hkept, keptIdx_mkDf70]
    rfl
  have hlen : (prepareX id (mkDf 70) "2Y").length = 50 := by
    rw [prepareX_length, hklen]
  have hmin : minSamplesD "2Y" = 50 := (invalid_tf_params hinv).2.2.2.2.1
  refine ⟨hinv, hkept, hklen, ?_⟩
  simp only [trainModel, hlen, hmin]
  norm_num [TrainResult.isOk]

/-- Dates of the raw rows addressed by a list of row indices. -/
def rowDates (df : StockDf) (l : List ℕ) : List ℤ := l.map (fun i => df.dates.getD i 0)

/-- In a strictly increasing list of naturals avoiding `0`, the entry at
position `i` strictly exceeds `i`. -/
theorem pairwise_lt_get_gt (l : List ℕ) (hp : l.Pairwise (· < ·)) (h0 : 0 ∉ l) :
    ∀ (i : ℕ) (h : i < l.length), i < l.get ⟨i, h⟩ := by
  intro i h
  have hh := pairwise_lt_headD_le l hp i h
  cases l with
  | nil => simp at h
  | cons a t =>
    have ha : a ≠ 0 := fun e => h0 (by simp [e])
    simp only [List.headD_cons] at hh
    omega

/-- Strictly increasing dates at strictly increasing in-range positions. -/
theorem dates_mono (df : StockDf) (hdates : df.dates.Pairwise (· < ·))
    {i j : ℕ} (hij : i < j) (hj : j < df.dates.length) :
    df.dates.getD i 0 < df.dates.getD j 0 := by
  have hi : i < df.dates.length := lt_trans hij hj
  rw [List.getD_eq_get df.dates 0 hi, List.getD_eq_get df.dates 0 hj]
  exact List.pairwise_iff_get.1 hdates ⟨i, hi⟩ ⟨j, hj⟩ hij

/-- C4: for data meeting the sample floor with strictly increasing dates,
`train_model` splits the engineered rows chronologically 80/20 with no
shuffling: the test slice is the latest rows, both slices are nonempty, and
every training-row date is strictly below every test-row date. -/
theorem c4_chronological_split (B : Backend) (sq : ℚ → ℚ) (st : PredState) (df : StockDf)
    (symbol tf : String)
    (hdates : df.dates.Pairwise (· < ·))
    (hdlen : df.dates.length = df.n)
    (hn : minSamplesD tf ≤ (prepareX sq df tf).length) :
    (∀ r, (trainModel B sq st df symbol tf).1 = .ok r →
        r.actuals = (prepareY sq df tf).drop (splitIdx (prepareX sq df tf).length)) ∧
    rowDates df ((keptIdx sq df tf).take (splitIdx (prepareX sq df tf).length)) ≠ [] ∧
    rowDates df ((keptIdx sq df tf).drop (splitIdx (prepareX sq df tf).length)) ≠ [] ∧
    (∀ d1 ∈ rowDates df ((keptIdx sq df tf).take (splitIdx (prepareX sq df tf).length)),
      ∀ d2 ∈ rowDates df ((keptIdx sq df tf).drop (splitIdx (prepareX sq df tf).length)),
        d1 < d2) := by
  have hmK : (prepareX sq df tf).length = (keptIdx sq df tf).length := prepareX_length sq df tf
  have h30 : 30 ≤ (prepareX sq df tf).length := le_trans (minSamplesD_ge tf) hn
  have hk1 : 1 ≤ splitIdx (prepareX sq df tf).length := splitIdx_pos h30
  have hkm : splitIdx (prepareX sq df tf).length < (prepareX sq df tf).length :=
    splitIdx_lt (by omega)
  refine ⟨?_, ?_, ?_, ?_⟩
  · intro r hr
    simp only [trainModel] at hr
    rw [if_neg (not_lt.2 hn)] at hr
    simp only at hr
    injection hr with hr1
    rw [← hr1]
  · have : (rowDates df ((keptIdx sq df tf).take (splitIdx (prepareX sq df tf).length))).length
        = min (splitIdx (prepareX sq df tf).length) (keptIdx sq df tf).length := by
      simp [rowDates]
    intro hcon
    rw [hcon] at this
    simp only [List.length_nil] at this
    omega
  · have : (rowDates df ((keptIdx sq df tf).drop (splitIdx (prepareX sq df tf).length))).length
        = (keptIdx sq df tf).length - splitIdx (prepareX sq df tf).length := by
      simp [rowDates]
    intro hcon
    rw [hcon] at this
    simp only [List.length_nil] at this
    omega
  · intro d1 hd1 d2 hd2
    simp only [rowDates, List.mem_map] at hd1 hd2
    obtain ⟨i1, hi1, rfl⟩ := hd1
    obtain ⟨i2, hi2, rfl⟩ := hd2
    have hpw := keptIdx_pairwise sq df tf
    rw [← List.take_append_drop (splitIdx (prepareX sq df tf).length) (keptIdx sq df tf)]
      at hpw
    have hlt : i1 < i2 := (List.pairwise_append.1 hpw).2.2 i1 hi1 i2 hi2
    have hi2n : i2 < df.n :=
      keptIdx_lt sq df tf i2 (List.mem_of_mem_drop hi2)
    exact dates_mono df hdates hlt (by omega)

/-- Witness for C4: the 50-row synthetic dataframe with timeframe `1M`. -/
theorem c4_witness :
    (mkDf 50).dates.Pairwise (· < ·) ∧
    minSamplesD "1M" ≤ (prepareX id (mkDf 50) "1M").length ∧
    (∀ d1 ∈ rowDates (mkDf 50)
        ((keptIdx id (mkDf 50) "1M").take (splitIdx (prepareX id (mkDf 50) "1M").length)),
      ∀ d2 ∈ rowDates (mkDf 50)
        ((keptIdx id (mkDf 50) "1M").drop (splitIdx (prepareX id (mkDf 50) "1M").length)),
        d1 < d2) := by
  have hp := mkDf_dates_pairwise 50
  have hn : minSamplesD "1M" ≤ (prepareX id (mkDf 50) "1M").length := by
    rw [prepareX_length, keptIdx_mkDf50]
    decide
  exact ⟨hp, hn,
    (c4_chronological_split B0 id st0 (mkDf 50) "AAPL" "1M" hp (mkDf_dates_length 50) hn).2.2.2⟩

/-- C10: the dates a successful `train_model` returns are sliced from the
raw date index at positions `[split_idx, split_idx + len(test))` rather
than from the NaN-dropped feature index; when feature engineering drops the
leading raw row, every returned date is strictly earlier than the true date
of the test row it is paired with. -/
theorem c10_prediction_dates (B : Backend) (sq : ℚ → ℚ) (st : PredState) (df : StockDf)
    (symbol tf : String)
    (hdates : df.dates.Pairwise (· < ·))
    (hdlen : df.dates.length = df.n)
    (h0 : 0 ∉ keptIdx sq df tf)
    (hn : minSamplesD tf ≤ (prepareX sq df tf).length) :
    ∀ r, (trainModel B sq st df symbol tf).1 = .ok r →
      r.predictionDates =
        (df.dates.drop (splitIdx (prepareX sq df tf).length)).take
          ((prepareX sq df tf).length - splitIdx (prepareX sq df tf).length) ∧
      List.Forall₂ (· < ·) r.predictionDates
        (rowDates df ((keptIdx sq df tf).drop (splitIdx (prepareX sq df tf).length))) := by
  intro r hr
  have hmK : (prepareX sq df tf).length = (keptIdx sq df tf).length := prepareX_length sq df tf
  have hyK : (prepareY sq df tf).length = (keptIdx sq df tf).length := prepareY_length sq df tf
  have h30 : 30 ≤ (prepareX sq df tf).length := le_trans (minSamplesD_ge tf) hn
  have hkm : splitIdx (prepareX sq df tf).length < (prepareX sq df tf).length :=
    splitIdx_lt (by omega)
  have hKn : (keptIdx sq df tf).length ≤ df.n := keptIdx_length_le sq df tf
  -- extract the returned dates from the success branch
  have hrd : r.predictionDates =
      (df.dates.drop (splitIdx (prepareX sq df tf).length)).take
        ((prepareY sq df tf).drop (splitIdx (prepareX sq df tf).length)).length := by
    simp only [trainModel] at hr
    rw [if_neg (not_lt.2 hn)] at hr
    simp only at hr
    injection hr with hr1
    rw [← hr1]
  have hteln : ((prepareY sq df tf).drop (splitIdx (prepareX sq df tf).length)).length
      = (prepareX sq df tf).length - splitIdx (prepareX sq df tf).length := by
    rw [List.length_drop, hyK, hmK]
  refine ⟨by rw [hrd, hteln], ?_⟩
  rw [hrd, hteln]
  set k := splitIdx (prepareX sq df tf).length with hk
  set K := keptIdx sq df tf with hKdef
  rw [List.forall₂_iff_get]
  have hlen1 : ((df.dates.drop k).take ((prepareX sq df tf).length - k)).length
      = (prepareX sq df tf).length - k := by
    rw [List.length_take, List.length_drop]
    omega
  have hlen2 : (rowDates df (K.drop k)).length = (prepareX sq df tf).length - k := by
    simp [rowDates, ← hKdef, hmK]
  constructor
  · rw [hlen1, hlen2]
  · intro i h₁ h₂
    have hilt : i < (prepareX sq df tf).length - k := by rw [hlen1] at h₁; exact h₁
    have hki : k + i < df.dates.length := by omega
    have hdi : i < (df.dates.drop k).length := by rw [List.length_drop]; omega
    have hKki : k + i < K.length := by omega
    have hdKi : i < (K.drop k).length := by rw [List.length_drop]; omega
    -- the returned date is the raw date at position k + i
    have e2 : df.dates.get ⟨k + i, hki⟩ = (df.dates.drop k).get ⟨i, hdi⟩ :=
      List.get_drop df.dates hki
    have e1 : (df.dates.drop k).get ⟨i, hdi⟩
        = ((df.dates.drop k).take ((prepareX sq df tf).length - k)).get ⟨i, h₁⟩ :=
      List.get_take (df.dates.drop k) hdi hilt
    -- the true date of the paired test row sits at the kept index
    have eK : (K.drop k).get ⟨i, hdKi⟩ = K.get ⟨k + i, hKki⟩ :=
      (List.get_drop K hKki).symm
    have eR : (rowDates df (K.drop k)).get ⟨i, h₂⟩
        = df.dates.getD (K.get ⟨k + i, hKki⟩) 0 := by
      simp only [rowDates, List.get_map]
      rw [show ((K.drop k).get ⟨i, by simpa [rowDates] using h₂⟩) = K.get ⟨k + i, hKki⟩ from eK]
    have hgt : k + i < K.get ⟨k + i, hKki⟩ :=
      pairwise_lt_get_gt K (by rw [hKdef]; exact keptIdx_pairwise sq df tf)
        (by rw [hKdef]; exact h0) (k + i) hKki
    have hKlt : K.get ⟨k + i, hKki⟩ < df.dates.length := by
      have hmem : K.get ⟨k + i, hKki⟩ ∈ K := List.get_mem K (k + i) hKki
      have := keptIdx_lt sq df tf (K.get ⟨k + i, hKki⟩) (by rw [← hKdef]; exact hmem)
      omega
    have hfin : df.dates.get ⟨k + i, hki⟩ < df.dates.getD (K.get ⟨k + i, hKki⟩) 0 := by
      rw [List.getD_eq_get df.dates 0 hKlt]
      exact List.pairwise_iff_get.1 hdates ⟨k + i, hki⟩ ⟨_, hKlt⟩ hgt
    rw [eR, ← e1]
    calc ((df.dates.drop k).get ⟨i, hdi⟩ : ℤ) = df.dates.get ⟨k + i, hki⟩ := e2.symm
      _ < df.dates.getD (K.get ⟨k + i, hKki⟩) 0 := hfin

/-- Witness for C10: the 50-row synthetic dataframe, whose first engineered
row is raw row 19. -/
theorem c10_witness :
    0 ∉ keptIdx id (mkDf 50) "1M" ∧
    minSamplesD "1M" ≤ (prepareX id (mkDf 50) "1M").length ∧
    ∀ r, (trainModel B0 id st0 (mkDf 50) "AAPL" "1M").1 = .ok r →
      List.Forall₂ (· < ·) r.predictionDates
        (rowDates (mkDf 50)
          ((keptIdx id (mkDf 50) "1M").drop (splitIdx (prepareX id (mkDf 50) "1M").length))) := by
  have h0 : 0 ∉ keptIdx id (mkDf 50) "1M" := by
    rw [keptIdx_mkDf50]
    decide
  have hn : minSamplesD "1M" ≤ (prepareX id (mkDf 50) "1M").length := by
    rw [prepareX_length, keptIdx_mkDf50]
    decide
  exact ⟨h0, hn, fun r hr =>
    (c10_prediction_dates B0 id st0 (mkDf 50) "AAPL" "1M" (mkDf_dates_pairwise 50)
      (mkDf_dates_length 50) h0 hn r hr).2⟩

/-- C7: the standardizer's statistics are a function of the training slice
only — two feature tables agreeing on their first `⌊0.8·len⌋` rows fit
identical statistics — and a successful `train_model` stores, and scales
both slices with, exactly the statistics fitted on the training slice. -/
theorem c7_scaler_from_train_only (sq : ℚ → ℚ) (x1 x2 : List (List PVal))
    (hlen : x1.length = x2.length)
    (htake : x1.take (splitIdx x1.length) = x2.take (splitIdx x2.length)) :
    fitScaler (x1.take (splitIdx x1.length)) = fitScaler (x2.take (splitIdx x2.length)) ∧
    (∀ (B : Backend) (st : PredState) (df : StockDf) (symbol tf : String)
        (r : TrainOk) (st' : PredState),
      trainModel B sq st df symbol tf = (.ok r, st') →
      st'.scalers.lookup (symbol ++ "_" ++ tf) =
        some (fitScaler ((prepareX sq df tf).take (splitIdx (prepareX sq df tf).length))) ∧
      st'.models.lookup (symbol ++ "_" ++ tf) =
        some ⟨modelFamily tf,
          ((prepareX sq df tf).take (splitIdx (prepareX sq df tf).length)).map
            (standardizeRow sq
              (fitScaler ((prepareX sq df tf).take (splitIdx (prepareX sq df tf).length)))),
          (prepareY sq df tf).take (splitIdx (prepareX sq df tf).length)⟩ ∧
      r.predictions =
        B.predict
          ⟨modelFamily tf,
            ((prepareX sq df tf).take (splitIdx (prepareX sq df tf).length)).map
              (standardizeRow sq
                (fitScaler ((prepareX sq df tf).take (splitIdx (prepareX sq df tf).length)))),
            (prepareY sq df tf).take (splitIdx (prepareX sq df tf).length)⟩
          (((prepareX sq df tf).drop (splitIdx (prepareX sq df tf).length)).map
            (standardizeRow sq
              (fitScaler ((prepareX sq df tf).take (splitIdx (prepareX sq df tf).length)))))) := by
  constructor
  · rw [htake]
  · intro B st df symbol tf r st' h
    simp only [trainModel] at h
    by_cases hc : (prepareX sq df tf).length < minSamplesD tf
    · rw [if_pos hc] at h
      simp at h
    · rw [if_neg hc] at h
      simp only [Prod.mk.injEq] at h
      obtain ⟨h1, h2⟩ := h
      injection h1 with h1
      refine ⟨?_, ?_, ?_⟩
      · rw [← h2]
        simp [insertA, List.lookup]
      · rw [← h2]
        simp [insertA, List.lookup]
      · rw [← h1]

/-- A horizon-day count is positive. -/
theorem TIMEFRAME_DAYS_pos {tf : String} {td : ℕ} (h : TIMEFRAME_DAYS tf = some td) :
    0 < td := by
  unfold TIMEFRAME_DAYS at h
  split_ifs at h <;> first
    | (injection h with h; omega)
    | injection h

/-- A defined horizon gives the defaulting lookup the same value. -/
theorem timeframeDaysD_eq {tf : String} {td : ℕ} (h : TIMEFRAME_DAYS tf = some td) :
    timeframeDaysD tf = td := by
  simp [timeframeDaysD, h]

/-- For every defined horizon, the per-point day step is at least one. -/
theorem dpp_pos {tf : String} {td : ℕ} (h : TIMEFRAME_DAYS tf = some td) :
    1 ≤ td / predictionPoints tf := by
  unfold TIMEFRAME_DAYS at h
  split_ifs at h <;> first
    | (injection h with h; subst_vars; decide)
    | injection h

/-- The confidence score of a generated forecast point: exactly the clamped
linear decay, at least the 50-floor while the horizon lasts, at most 100. -/
theorem forecastPoint_confidence (tf : String) (td : ℕ) (lastDate : ℤ) (base tr : ℚ)
    (i : ℕ) (hi : i < predictionPoints tf) (htd : 0 < td) :
    (forecastPoint tf td (predictionPoints tf) lastDate base tr i).confidence
        = max 0 (100 -
            ((forecastPoint tf td (predictionPoints tf) lastDate base tr i).daysAhead : ℚ) /
              (td : ℚ) * 50) ∧
    50 ≤ (forecastPoint tf td (predictionPoints tf) lastDate base tr i).confidence ∧
    (forecastPoint tf td (predictionPoints tf) lastDate base tr i).confidence ≤ 100 := by
  have hdA : (i + 1) * (td / predictionPoints tf) ≤ td := by
    calc (i + 1) * (td / predictionPoints tf)
        ≤ predictionPoints tf * (td / predictionPoints tf) :=
          Nat.mul_le_mul_right _ hi
      _ = td / predictionPoints tf * predictionPoints tf := Nat.mul_comm _ _
      _ ≤ td := Nat.div_mul_le_self td _
  have hdAq : (((i + 1) * (td / predictionPoints tf) : ℕ) : ℚ) ≤ (td : ℚ) :=
    Nat.cast_le.2 hdA
  have htdq : (0 : ℚ) < (td : ℚ) := by exact_mod_cast htd
  have hx1 : (((i + 1) * (td / predictionPoints tf) : ℕ) : ℚ) / (td : ℚ) ≤ 1 :=
    (div_le_one htdq).2 hdAq
  have hx0 : (0 : ℚ) ≤ (((i + 1) * (td / predictionPoints tf) : ℕ) : ℚ) / (td : ℚ) :=
    div_nonneg (Nat.cast_nonneg _) (le_of_lt htdq)
  refine ⟨rfl, ?_, ?_⟩
  · simp only [forecastPoint]
    have : (50 : ℚ) ≤ 100 - ((((i + 1) * (td / predictionPoints tf) : ℕ) : ℚ) / (td : ℚ) * 50) := by
      nlinarith
    exact le_max_of_le_right this
  · simp only [forecastPoint]
    refine max_le (by norm_num) ?_
    nlinarith

/-- C2: every forecast point's confidence equals the clamped linear decay
`max(0, 100 − (days_ahead/total_days)·50)`; within one run the score is
non-increasing in `daysAhead`, never below the 50-floor, the first point is
at most 100 and the last at least 0. -/
theorem c2_confidence_decay (B : Backend) (sq : ℚ → ℚ) (st : PredState) (df : StockDf)
    (symbol tf : String) (pts : List ForecastPoint)
    (h : (predictFuture B sq st df symbol tf).1 = some pts) :
    (∀ p ∈ pts,
      p.confidence = max 0 (100 - (p.daysAhead : ℚ) / (timeframeDaysD tf : ℚ) * 50) ∧
      50 ≤ p.confidence ∧ p.confidence ≤ 100) ∧
    pts.Pairwise (fun a b => b.confidence ≤ a.confidence) ∧
    (∀ p, pts.head? = some p → p.confidence ≤ 100) ∧
    (∀ p, pts.getLast? = some p → 0 ≤ p.confidence) := by
  have hempty : pts = [] →
      (∀ p ∈ pts,
        p.confidence = max 0 (100 - (p.daysAhead : ℚ) / (timeframeDaysD tf : ℚ) * 50) ∧
        50 ≤ p.confidence ∧ p.confidence ≤ 100) ∧
      pts.Pairwise (fun a b => b.confidence ≤ a.confidence) ∧
      (∀ p, pts.head? = some p → p.confidence ≤ 100) ∧
      (∀ p, pts.getLast? = some p → 0 ≤ p.confidence) := by
    rintro rfl
    refine ⟨by simp, by simp, by simp, by simp⟩
  simp only [predictFuture] at h
  split at h
  · exact hempty (by simpa using h.symm)
  · rename_i entry hentry
    split at h
    · simp at h
    · rename_i stats hstats
      split at h
      · exact hempty (by simpa using h.symm)
      · split at h
        · simp at h
        · rename_i td htd
          simp only [Option.some.injEq] at h
          subst h
          have h0td := TIMEFRAME_DAYS_pos htd
          have htfd := timeframeDaysD_eq htd
          have hmem : ∀ p ∈ (List.range (predictionPoints tf)).map
              (forecastPoint tf td (predictionPoints tf)
                (df.dates.getD (df.dates.length - 1) 0)
                ((B.predict entry [standardizeRow sq stats
                  ((prepareX sq df tf).getLastD [])]).headD 0)
                (recentTrendRate df)),
              p.confidence = max 0 (100 - (p.daysAhead : ℚ) / (timeframeDaysD tf : ℚ) * 50) ∧
              50 ≤ p.confidence ∧ p.confidence ≤ 100 := by
            intro p hp
            obtain ⟨i, hi, rfl⟩ := List.mem_map.1 hp
            rw [htfd]
            exact forecastPoint_confidence tf td _ _ _ i (List.mem_range.1 hi) h0td
          refine ⟨hmem, ?_, ?_, ?_⟩
          · rw [List.pairwise_map]
            refine (List.pairwise_lt_range _).imp ?_
            intro i j hij
            have hle : (((i + 1) * (td / predictionPoints tf) : ℕ) : ℚ)
                ≤ (((j + 1) * (td / predictionPoints tf) : ℕ) : ℚ) :=
              Nat.cast_le.2 (Nat.mul_le_mul_right _ (by omega))
            have htdq : (0 : ℚ) < (td : ℚ) := by exact_mod_cast h0td
            simp only [forecastPoint]
            refine max_le_max le_rfl ?_
            have := (div_le_div_iff_of_pos_right htdq).2 hle
            nlinarith
          · intro p hp
            exact (hmem p (List.mem_of_mem_head? hp)).2.2
          · intro p hp
            obtain ⟨hne, rfl⟩ := List.mem_getLast?_eq_getLast (Option.mem_def.2 hp)
            exact le_trans (by norm_num) (hmem _ (List.getLast_mem hne)).2.1

/-- Witness for C2: a forecast run from a cached 1M model over the 21-row
synthetic dataframe. -/
theorem c2_witness :
    (predictFuture B0 id st0 (mkDf 21) "AAPL" "1M").1 =
      some ((predictFuture B0 id st0 (mkDf 21) "AAPL" "1M").1.getD []) ∧
    ((predictFuture B0 id st0 (mkDf 21) "AAPL" "1M").1.getD []).Pairwise
      (fun a b => b.confidence ≤ a.confidence) := by
  have hsome : ((predictFuture B0 id st0 (mkDf 21) "AAPL" "1M").1).isSome = true := by decide
  have he : (predictFuture B0 id st0 (mkDf 21) "AAPL" "1M").1 =
      some ((predictFuture B0 id st0 (mkDf 21) "AAPL" "1M").1.getD []) := by
    obtain ⟨v, hv⟩ := Option.isSome_iff_exists.1 hsome
    rw [hv]
    rfl
  exact ⟨he, (c2_confidence_decay B0 id st0 (mkDf 21) "AAPL" "1M" _ he).2.1⟩

/-- C1 (amended): with a cached model and scaler for the key, a valid
timeframe, and an input whose engineered feature table is non-empty,
`predict_future` emits a chronologically increasing sequence of exactly the
per-horizon point count (1M: 30, 6M: 26, 1Y: 52, 5Y: 60), the `i`-th point
lying `i × (total_days // points)` days ahead, with `total_days` 30, 180,
365 and 1825 respectively.  (The claim as frozen also asserts this for
inputs whose engineered table is empty, where `predict_future` in fact
returns an empty list — see the counterexample.) -/
theorem c1_forecast_points (B : Backend) (sq : ℚ → ℚ) (st : PredState) (df : StockDf)
    (symbol tf : String) (e : ModelEntry) (s : List (PVal × PVal))
    (hm : st.models.lookup (symbol ++ "_" ++ tf) = some e)
    (hs : st.scalers.lookup (symbol ++ "_" ++ tf) = some s)
    (htf : tf ∈ validTimeframes)
    (hX : (prepareX sq df tf).length ≠ 0) :
    (predictionPoints "1M" = 30 ∧ predictionPoints "6M" = 26 ∧
      predictionPoints "1Y" = 52 ∧ predictionPoints "5Y" = 60 ∧
      TIMEFRAME_DAYS "1M" = some 30 ∧ TIMEFRAME_DAYS "6M" = some 180 ∧
      TIMEFRAME_DAYS "1Y" = some 365 ∧ TIMEFRAME_DAYS "5Y" = some 1825) ∧
    ((predictFuture B sq st df symbol tf).1).isSome = true ∧
    ∀ pts, (predictFuture B sq st df symbol tf).1 = some pts →
      pts.length = predictionPoints tf ∧
      (∀ (i : ℕ) (hi : i < pts.length),
        (pts.get ⟨i, hi⟩).daysAhead = (i + 1) * (timeframeDaysD tf / predictionPoints tf)) ∧
      pts.Pairwise (fun a b => a.dateI < b.dateI) := by
  obtain ⟨td, htd⟩ : ∃ td, TIMEFRAME_DAYS tf = some td := by
    rcases (by simpa [validTimeframes] using htf :
        tf = "1M" ∨ tf = "6M" ∨ tf = "1Y" ∨ tf = "5Y") with rfl | rfl | rfl | rfl <;>
      exact ⟨_, rfl⟩
  have hsome : (st.models.lookup (symbol ++ "_" ++ tf)).isSome = true := by rw [hm]; rfl
  have key : (predictFuture B sq st df symbol tf).1 =
      some ((List.range (predictionPoints tf)).map
        (forecastPoint tf td (predictionPoints tf)
          (df.dates.getD (df.dates.length - 1) 0)
          ((B.predict e [standardizeRow sq s ((prepareX sq df tf).getLastD [])]).headD 0)
          (recentTrendRate df))) := by
    simp only [predictFuture, hsome, if_true, hm, hs, htd, Option.isSome_some, reduceIte]
    rw [if_neg hX]
  refine ⟨⟨rfl, rfl, rfl, rfl, rfl, rfl, rfl, rfl⟩, by rw [key]; rfl, ?_⟩
  intro pts hpts
  have hpe := Option.some.inj (key.symm.trans hpts)
  subst hpe
  have hdpp := dpp_pos htd
  refine ⟨by simp, ?_, ?_⟩
  · intro i hi
    have hi' : i < (List.range (predictionPoints tf)).length := by simpa using hi
    rw [List.get_map, timeframeDaysD_eq htd]
    have : (List.range (predictionPoints tf)).get ⟨i, hi'⟩ = i := List.get_range i hi'
    rw [this]
    rfl
  · rw [List.pairwise_map]
    refine (List.pairwise_lt_range _).imp ?_
    intro i j hij
    show (df.dates.getD (df.dates.length - 1) 0 : ℤ)
        + (((i + 1) * (td / predictionPoints tf) : ℕ) : ℤ)
      < df.dates.getD (df.dates.length - 1) 0
        + (((j + 1) * (td / predictionPoints tf) : ℕ) : ℤ)
    have hmul : (i + 1) * (td / predictionPoints tf) < (j + 1) * (td / predictionPoints tf) :=
      (Nat.mul_lt_mul_right hdpp).2 (by omega)
    exact add_lt_add_left (by exact_mod_cast hmul) _

/-- Witness for C1's amended statement: cached 1M model, 21-row dataframe. -/
theorem c1_witness :
    "1M" ∈ validTimeframes ∧
    (prepareX id (mkDf 21) "1M").length ≠ 0 ∧
    ((predictFuture B0 id st0 (mkDf 21) "AAPL" "1M").1).isSome = true ∧
    (∀ pts, (predictFuture B0 id st0 (mkDf 21) "AAPL" "1M").1 = some pts →
      pts.length = predictionPoints "1M") := by
  have hm : st0.models.lookup ("AAPL" ++ "_" ++ "1M") = some entry0 := by decide
  have hs : st0.scalers.lookup ("AAPL" ++ "_" ++ "1M") = some [] := by decide
  have htf : "1M" ∈ validTimeframes := by decide
  have hX : (prepareX id (mkDf 21) "1M").length ≠ 0 := by
    rw [prepareX_length, keptIdx_mkDf21]
    decide
  have happ := c1_forecast_points B0 id st0 (mkDf 21) "AAPL" "1M" entry0 [] hm hs htf hX
  exact ⟨htf, hX, happ.2.1, fun pts h => (happ.2.2 pts h).1⟩

/-- Counterexample for C1 as stated: with a trained 1M model in the cache
and a non-empty one-row input series, `predict_future` returns the empty
list — not the 30 points the claim requires for every non-empty series. -/
theorem c1_counterexample :
    st0.models.lookup ("AAPL" ++ "_" ++ "1M") = some entry0 ∧
    (mkDf 1).n = 1 ∧
    (predictFuture B0 id st0 (mkDf 1) "AAPL" "1M").1 = some [] ∧
    ([] : List ForecastPoint).length ≠ predictionPoints "1M" := by
  refine ⟨by decide, by decide, by decide, by decide⟩

/-- Witness for C7: two one-column tables of five rows that agree on the
first four (the 80% slice) and differ on the held-out last row. -/
theorem c7_witness :
    ([[num 1], [num 2], [num 3], [num 4], [num 5]] : List (List PVal)).length
        = ([[num 1], [num 2], [num 3], [num 4], [num 99]] : List (List PVal)).length ∧
    fitScaler (([[num 1], [num 2], [num 3], [num 4], [num 5]] : List (List PVal)).take
        (splitIdx ([[num 1], [num 2], [num 3], [num 4], [num 5]] : List (List PVal)).length))
      = fitScaler (([[num 1], [num 2], [num 3], [num 4], [num 99]] : List (List PVal)).take
        (splitIdx ([[num 1], [num 2], [num 3], [num 4], [num 99]] : List (List PVal)).length)) := by
  refine ⟨by decide, ?_⟩
  exact (c7_scaler_from_train_only id
    [[num 1], [num 2], [num 3], [num 4], [num 5]]
    [[num 1], [num 2], [num 3], [num 4], [num 99]] (by decide) (by decide)).1

end StockApp
